import Mathlib

/-!
# BLEPTD core — shallow embedding

Embedding of the BLE Privacy Threat Detector core: the signature catalog
(`src/src/detection/signatures.h`), the advertisement matcher and detection
registry (`src/src/main.cpp`), and the TX/confusion manager
(`tx_mgr.h` / `tx_mgr.cpp`, provided as `src/unnamed/part_002`).

Bytes are modelled as `Nat` (values < 256 in all reachable data); payloads
and MAC addresses as `List Nat`; machine strings as Lean `String`.
-/

namespace BLEPTD

/-! ## Signature flags and constants (signatures.h, config.h) -/

def SIG_FLAG_COMPANY_ID : Nat := 0x0001
def SIG_FLAG_PAYLOAD : Nat := 0x0002
def SIG_FLAG_SERVICE_UUID : Nat := 0x0004
def SIG_FLAG_NAME_PATTERN : Nat := 0x0008
def SIG_FLAG_EXACT_MATCH : Nat := 0x0010
def SIG_FLAG_TRANSMITTABLE : Nat := 0x0020
def SIG_FLAG_MEDICAL : Nat := 0x0040

def CAT_TRACKER : Nat := 0x01
def CAT_GLASSES : Nat := 0x02
def CAT_MEDICAL : Nat := 0x04
def CAT_WEARABLE : Nat := 0x08
def CAT_AUDIO : Nat := 0x10

def THREAT_LOW : Nat := 1
def THREAT_MEDIUM : Nat := 2
def THREAT_HIGH : Nat := 3
def THREAT_SEVERE : Nat := 4
def THREAT_CRITICAL : Nat := 5

/-- `DEFAULT_CATEGORY_FILTER` (config.h): trackers, glasses, wearables, audio. -/
def DEFAULT_CATEGORY_FILTER : Nat := CAT_TRACKER ||| CAT_GLASSES ||| CAT_WEARABLE ||| CAT_AUDIO

def DETECTED_DEVICES_MAX : Nat := 64
def TX_MAX_CONCURRENT : Nat := 8
abbrev TX_CONFUSION_MAX_DEVICES : Nat := 16

/-! ## `device_signature_t` (signatures.h) -/

/-- `device_signature_t`. `payload_pattern` models the 8-byte C array
(always written with 8 entries below); `pattern_length` may exceed the
array, as in the C struct where the field is an independent `uint8_t`. -/
structure DeviceSignature where
  name : String
  category : Nat
  company_id : Nat
  payload_pattern : List Nat
  pattern_length : Nat
  pattern_offset : Int
  service_uuid : Nat
  threat_level : Nat
  flags : Nat
deriving DecidableEq

/-- The `pattern_length` bytes read from the 8-byte `payload_pattern` array
(a read past the array, possible only when `pattern_length` exceeds 8, is
modelled as zero bytes). -/
def patternBytes (sig : DeviceSignature) : List Nat :=
  sig.payload_pattern.take sig.pattern_length ++
    List.replicate (sig.pattern_length - sig.payload_pattern.length) 0

def hasFlagB (sig : DeviceSignature) (f : Nat) : Bool :=
  sig.flags &&& f ≠ 0

/-! ## Built-in catalog (`BUILTIN_SIGNATURES`) -/

def airtagRegistered : DeviceSignature :=
  { name := "AirTag (Registered)", category := CAT_TRACKER, company_id := 0x004C
  , payload_pattern := [0x4C, 0x00, 0x07, 0x19, 0, 0, 0, 0], pattern_length := 4
  , pattern_offset := 0, service_uuid := 0, threat_level := THREAT_SEVERE
  , flags := SIG_FLAG_COMPANY_ID ||| SIG_FLAG_PAYLOAD ||| SIG_FLAG_TRANSMITTABLE }

def airtagUnregistered : DeviceSignature :=
  { name := "AirTag (Unregistered)", category := CAT_TRACKER, company_id := 0x004C
  , payload_pattern := [0x4C, 0x00, 0x12, 0x19, 0, 0, 0, 0], pattern_length := 4
  , pattern_offset := 0, service_uuid := 0, threat_level := THREAT_SEVERE
  , flags := SIG_FLAG_COMPANY_ID ||| SIG_FLAG_PAYLOAD ||| SIG_FLAG_TRANSMITTABLE }

def samsungSmartTag : DeviceSignature :=
  { name := "Samsung SmartTag", category := CAT_TRACKER, company_id := 0x0075
  , payload_pattern := [0x75, 0x00, 0x42, 0x09, 0x01, 0, 0, 0], pattern_length := 5
  , pattern_offset := 0, service_uuid := 0, threat_level := THREAT_SEVERE
  , flags := SIG_FLAG_COMPANY_ID ||| SIG_FLAG_PAYLOAD ||| SIG_FLAG_TRANSMITTABLE }

def samsungSmartTag2 : DeviceSignature :=
  { name := "Samsung SmartTag2", category := CAT_TRACKER, company_id := 0x0075
  , payload_pattern := [0x75, 0x00, 0x42, 0x09, 0x02, 0, 0, 0], pattern_length := 5
  , pattern_offset := 0, service_uuid := 0, threat_level := THREAT_SEVERE
  , flags := SIG_FLAG_COMPANY_ID ||| SIG_FLAG_PAYLOAD ||| SIG_FLAG_TRANSMITTABLE }

def tileSig : DeviceSignature :=
  { name := "Tile", category := CAT_TRACKER, company_id := 0xFEEC
  , payload_pattern := [0xEC, 0xFE, 0, 0, 0, 0, 0, 0], pattern_length := 2
  , pattern_offset := -1, service_uuid := 0, threat_level := THREAT_SEVERE
  , flags := SIG_FLAG_COMPANY_ID ||| SIG_FLAG_PAYLOAD ||| SIG_FLAG_TRANSMITTABLE }

def tileAltSig : DeviceSignature :=
  { name := "Tile (Alt)", category := CAT_TRACKER, company_id := 0xFEED
  , payload_pattern := [0xED, 0xFE, 0, 0, 0, 0, 0, 0], pattern_length := 2
  , pattern_offset := -1, service_uuid := 0, threat_level := THREAT_SEVERE
  , flags := SIG_FLAG_COMPANY_ID ||| SIG_FLAG_PAYLOAD ||| SIG_FLAG_TRANSMITTABLE }

def chipoloSig : DeviceSignature :=
  { name := "Chipolo", category := CAT_TRACKER, company_id := 0xFE65
  , payload_pattern := [0x65, 0xFE, 0, 0, 0, 0, 0, 0], pattern_length := 2
  , pattern_offset := -1, service_uuid := 0, threat_level := THREAT_SEVERE
  , flags := SIG_FLAG_COMPANY_ID ||| SIG_FLAG_PAYLOAD ||| SIG_FLAG_TRANSMITTABLE }

def metaRayBan : DeviceSignature :=
  { name := "Meta Ray-Ban", category := CAT_GLASSES, company_id := 0x01AB
  , payload_pattern := [0, 0, 0, 0, 0, 0, 0, 0], pattern_length := 0
  , pattern_offset := -1, service_uuid := 0, threat_level := THREAT_CRITICAL
  , flags := SIG_FLAG_COMPANY_ID ||| SIG_FLAG_TRANSMITTABLE }

def metaRayBanTech : DeviceSignature :=
  { name := "Meta Ray-Ban (Tech)", category := CAT_GLASSES, company_id := 0x058E
  , payload_pattern := [0, 0, 0, 0, 0, 0, 0, 0], pattern_length := 0
  , pattern_offset := -1, service_uuid := 0, threat_level := THREAT_CRITICAL
  , flags := SIG_FLAG_COMPANY_ID ||| SIG_FLAG_TRANSMITTABLE }

def metaRayBanLuxottica : DeviceSignature :=
  { name := "Meta Ray-Ban (Luxottica)", category := CAT_GLASSES, company_id := 0x0D53
  , payload_pattern := [0, 0, 0, 0, 0, 0, 0, 0], pattern_length := 0
  , pattern_offset := -1, service_uuid := 0, threat_level := THREAT_CRITICAL
  , flags := SIG_FLAG_COMPANY_ID ||| SIG_FLAG_TRANSMITTABLE }

def snapSpectacles : DeviceSignature :=
  { name := "Snap Spectacles", category := CAT_GLASSES, company_id := 0x03C2
  , payload_pattern := [0, 0, 0, 0, 0, 0, 0, 0], pattern_length := 0
  , pattern_offset := -1, service_uuid := 0, threat_level := THREAT_CRITICAL
  , flags := SIG_FLAG_COMPANY_ID ||| SIG_FLAG_TRANSMITTABLE }

def amazonEchoFrames : DeviceSignature :=
  { name := "Amazon Echo Frames", category := CAT_GLASSES, company_id := 0x0171
  , payload_pattern := [0, 0, 0, 0, 0, 0, 0, 0], pattern_length := 0
  , pattern_offset := -1, service_uuid := 0, threat_level := THREAT_HIGH
  , flags := SIG_FLAG_COMPANY_ID ||| SIG_FLAG_TRANSMITTABLE }

def boseFrames : DeviceSignature :=
  { name := "Bose Frames", category := CAT_GLASSES, company_id := 0x009E
  , payload_pattern := [0, 0, 0, 0, 0, 0, 0, 0], pattern_length := 0
  , pattern_offset := -1, service_uuid := 0, threat_level := THREAT_MEDIUM
  , flags := SIG_FLAG_COMPANY_ID ||| SIG_FLAG_TRANSMITTABLE }

def dexcomCGM : DeviceSignature :=
  { name := "Dexcom CGM", category := CAT_MEDICAL, company_id := 0x00D1
  , payload_pattern := [0, 0, 0, 0, 0, 0, 0, 0], pattern_length := 0
  , pattern_offset := -1, service_uuid := 0xFEBC, threat_level := THREAT_MEDIUM
  , flags := SIG_FLAG_COMPANY_ID ||| SIG_FLAG_SERVICE_UUID ||| SIG_FLAG_MEDICAL }

def medtronicDevice : DeviceSignature :=
  { name := "Medtronic Device", category := CAT_MEDICAL, company_id := 0x02A5
  , payload_pattern := [0, 0, 0, 0, 0, 0, 0, 0], pattern_length := 0
  , pattern_offset := -1, service_uuid := 0, threat_level := THREAT_MEDIUM
  , flags := SIG_FLAG_COMPANY_ID ||| SIG_FLAG_MEDICAL }

def omnipodSig : DeviceSignature :=
  { name := "Omnipod", category := CAT_MEDICAL, company_id := 0x0822
  , payload_pattern := [0, 0, 0, 0, 0, 0, 0, 0], pattern_length := 0
  , pattern_offset := -1, service_uuid := 0x1830, threat_level := THREAT_MEDIUM
  , flags := SIG_FLAG_COMPANY_ID ||| SIG_FLAG_SERVICE_UUID ||| SIG_FLAG_MEDICAL }

def abbottFreeStyle : DeviceSignature :=
  { name := "Abbott FreeStyle", category := CAT_MEDICAL, company_id := 0x0618
  , payload_pattern := [0, 0, 0, 0, 0, 0, 0, 0], pattern_length := 0
  , pattern_offset := -1, service_uuid := 0, threat_level := THREAT_MEDIUM
  , flags := SIG_FLAG_COMPANY_ID ||| SIG_FLAG_MEDICAL }

def fitbitSig : DeviceSignature :=
  { name := "Fitbit", category := CAT_WEARABLE, company_id := 0x0224
  , payload_pattern := [0, 0, 0, 0, 0, 0, 0, 0], pattern_length := 0
  , pattern_offset := -1, service_uuid := 0, threat_level := THREAT_LOW
  , flags := SIG_FLAG_COMPANY_ID }

def garminSig : DeviceSignature :=
  { name := "Garmin", category := CAT_WEARABLE, company_id := 0x0087
  , payload_pattern := [0, 0, 0, 0, 0, 0, 0, 0], pattern_length := 0
  , pattern_offset := -1, service_uuid := 0, threat_level := THREAT_LOW
  , flags := SIG_FLAG_COMPANY_ID }

def sonyAudio : DeviceSignature :=
  { name := "Sony Audio", category := CAT_AUDIO, company_id := 0x012D
  , payload_pattern := [0, 0, 0, 0, 0, 0, 0, 0], pattern_length := 0
  , pattern_offset := -1, service_uuid := 0, threat_level := THREAT_LOW
  , flags := SIG_FLAG_COMPANY_ID }

def boseAudio : DeviceSignature :=
  { name := "Bose Audio", category := CAT_AUDIO, company_id := 0x009E
  , payload_pattern := [0, 0, 0, 0, 0, 0, 0, 0], pattern_length := 0
  , pattern_offset := -1, service_uuid := 0, threat_level := THREAT_LOW
  , flags := SIG_FLAG_COMPANY_ID }

/-- `BUILTIN_SIGNATURES`, in declaration order. -/
def BUILTIN_SIGNATURES : List DeviceSignature :=
  [ airtagRegistered, airtagUnregistered, samsungSmartTag, samsungSmartTag2
  , tileSig, tileAltSig, chipoloSig
  , metaRayBan, metaRayBanTech, metaRayBanLuxottica, snapSpectacles
  , amazonEchoFrames, boseFrames
  , dexcomCGM, medtronicDevice, omnipodSig, abbottFreeStyle
  , fitbitSig, garminSig
  , sonyAudio, boseAudio ]

/-! ## Detection matcher (`matchSignature`, main.cpp lines 171–245) -/

/-- Outcome of the manufacturer-data scan loop in `matchSignature`:
either a company id was found in a well-formed Manufacturer Specific Data
record (`found`), or the loop hit a zero length byte or a record that would
overrun the buffer (`aborted`, the C `break`), or it walked off the end of
the payload (`ended`). In the two latter cases `hasMfgData` stays false. -/
inductive ScanOut where
  | found (companyId : Nat)
  | aborted
  | ended
deriving DecidableEq

/-- The `while (idx < payloadLen)` scan of `matchSignature`, written on the
payload suffix starting at `idx`: `l` is `payload[idx]`, `rest` the bytes
after it. `rest.length < l` is exactly the C overrun test
`idx + len >= payloadLen`. On a record of type `0xFF` with `len >= 3` the
company id is `payload[idx+2] | (payload[idx+3] << 8)`. The `fuel`
argument only bounds the recursion: each iteration consumes at least two
bytes of the suffix (`l + 1 ≥ 2`), so with initial fuel `p.length` the
fuel-exhaustion case is unreachable — the C loop terminates because `idx`
strictly increases. -/
def scanMfgFuel : Nat → List Nat → ScanOut
  | _, [] => ScanOut.ended
  | 0, _ :: _ => ScanOut.ended
  | fuel + 1, l :: rest =>
    if l = 0 ∨ rest.length < l then ScanOut.aborted
    else if rest.headD 0 = 0xFF ∧ 3 ≤ l then
      ScanOut.found (rest.getD 1 0 ||| (rest.getD 2 0 <<< 8))
    else scanMfgFuel fuel (rest.drop l)

/-- The manufacturer-data scan of `matchSignature`. -/
def scanMfg (p : List Nat) : ScanOut := scanMfgFuel p.length p

/-- The `(mfgCompanyId, hasMfgData)` pair as an `Option`. -/
def mfgOf (p : List Nat) : Option Nat :=
  match scanMfg p with
  | ScanOut.found c => some c
  | _ => none

/-- Company-id step of `matchSignature`: sets `matched` iff the
`SIG_FLAG_COMPANY_ID` flag is set, manufacturer data is present and the ids
are equal. -/
def companyMatchB (mfg : Option Nat) (sig : DeviceSignature) : Bool :=
  hasFlagB sig SIG_FLAG_COMPANY_ID &&
    (match mfg with
     | some c => sig.company_id == c
     | none => false)

/-- Pattern step of `matchSignature`: at a fixed non-negative offset the
pattern bytes must sit exactly there (and fit the payload); at offset `-1`
the pattern may occur anywhere (`for j; j + len <= payloadLen; j++`). -/
def patternFoundB (p : List Nat) (sig : DeviceSignature) : Bool :=
  if 0 ≤ sig.pattern_offset then
    let off := sig.pattern_offset.toNat
    decide (off + sig.pattern_length ≤ p.length) &&
      ((p.drop off).take sig.pattern_length == patternBytes sig)
  else
    (List.range (p.length + 1 - sig.pattern_length)).any
      (fun j => (p.drop j).take sig.pattern_length == patternBytes sig)

/-- One iteration of the signature loop of `matchSignature`: the company
step, then — when `SIG_FLAG_PAYLOAD` is set and the pattern is non-empty —
the pattern result combined with AND under `SIG_FLAG_EXACT_MATCH`, with OR
otherwise. -/
def sigMatches (mfg : Option Nat) (p : List Nat) (sig : DeviceSignature) : Bool :=
  let m := companyMatchB mfg sig
  if hasFlagB sig SIG_FLAG_PAYLOAD && decide (0 < sig.pattern_length) then
    if hasFlagB sig SIG_FLAG_EXACT_MATCH then m && patternFoundB p sig
    else m || patternFoundB p sig
  else m

/-- `matchSignature`: first matching signature of the built-in catalog. -/
def matchSignature (p : List Nat) : Option DeviceSignature :=
  BUILTIN_SIGNATURES.find? (fun sig => sigMatches (mfgOf p) p sig)

/-! ## Packet forger (`TXManager::buildAdvertisingData`, tx_mgr.cpp) -/

/-- `TXManager::buildAdvertisingData`. `rng i` models the `i`-th
`esp_random()` byte drawn while building (each call site masks with
`0xFF`). Returns the advertisement bytes; the C `advLen` is the length of
the returned list, and the C return value `pos > 0` is always true because
the Flags record is unconditionally emitted first. -/
def buildAdvertisingData (rng : Nat → Nat) (sig : DeviceSignature) : List Nat :=
  let flagsRec : List Nat := [0x02, 0x01, 0x06]
  let mfgRec : List Nat :=
    if sig.company_id ≠ 0 then
      if 0 < sig.pattern_length ∧ sig.pattern_offset = 0 then
        -- pattern embeds the company id; emit it verbatim as the record data
        (sig.pattern_length + 1) :: 0xFF :: patternBytes sig
      else
        -- company id (little-endian) plus a 4-byte window of pattern/random
        let extraBytes : Nat := 4
        (2 + extraBytes + 1) :: 0xFF ::
          (sig.company_id &&& 0xFF) :: ((sig.company_id >>> 8) &&& 0xFF) ::
          (if 0 < sig.pattern_length ∧ sig.pattern_length ≤ extraBytes then
             patternBytes sig ++
               (List.range (extraBytes - sig.pattern_length)).map (fun i => rng i &&& 0xFF)
           else
             (List.range extraBytes).map (fun i => rng i &&& 0xFF))
    else []
  let svcRec : List Nat :=
    if sig.service_uuid ≠ 0 then
      [0x03, 0x03, sig.service_uuid &&& 0xFF, (sig.service_uuid >>> 8) &&& 0xFF]
    else []
  flagsRec ++ mfgRec ++ svcRec

/-- Closed form of the advertisement length produced by
`buildAdvertisingData` (the final value of `pos`). -/
def advLen (sig : DeviceSignature) : Nat :=
  3 +
    (if sig.company_id ≠ 0 then
       if 0 < sig.pattern_length ∧ sig.pattern_offset = 0 then 2 + sig.pattern_length
       else 8
     else 0) +
    (if sig.service_uuid ≠ 0 then 4 else 0)

/-! ## Detected-device registry (`ScanCallbacks::onResult`, main.cpp 103–166) -/

/-- `DetectedDevice` (main.cpp); `mac` is the 6-byte address key. -/
structure DetectedDevice where
  name : String
  mac : List Nat
  rssi : Int
  category : Nat
  companyId : Nat
  firstSeen : Nat
  lastSeen : Nat
  detectionCount : Nat
  threatLevel : Nat
  active : Bool
deriving DecidableEq

/-- The fresh entry written on first detection of a new address. -/
def mkDetectedDevice (sig : DeviceSignature) (mac : List Nat) (rssi : Int)
    (now : Nat) : DetectedDevice :=
  { name := sig.name, mac := mac, rssi := rssi, category := sig.category
  , companyId := sig.company_id, firstSeen := now, lastSeen := now
  , detectionCount := 1, threatLevel := sig.threat_level, active := true }

/-- The in-place update applied to an existing entry on a repeat match. -/
def refreshDevice (rssi : Int) (now : Nat) (d : DetectedDevice) : DetectedDevice :=
  { d with
    rssi := rssi
  , lastSeen := now
  , detectionCount := d.detectionCount + 1
  , active := true }

/-- Update the first entry whose address equals `mac` (the `existingIdx`
scan of `onResult` finds the first index; the rest of the list is kept). -/
def updateFirstMac (mac : List Nat) (rssi : Int) (now : Nat) :
    List DetectedDevice → List DetectedDevice
  | [] => []
  | d :: ds =>
    if d.mac == mac then refreshDevice rssi now d :: ds
    else d :: updateFirstMac mac rssi now ds

/-- Registry step of `onResult` after the filters have passed: update the
existing entry for `mac`, else append a fresh one while below
`DETECTED_DEVICES_MAX`, else drop silently. -/
def regInsertOrUpdate (devs : List DetectedDevice) (sig : DeviceSignature)
    (mac : List Nat) (rssi : Int) (now : Nat) : List DetectedDevice :=
  if devs.any (fun d => d.mac == mac) then updateFirstMac mac rssi now devs
  else if devs.length < DETECTED_DEVICES_MAX then
    devs ++ [mkDetectedDevice sig mac rssi now]
  else devs

/-- Scanner-side state consumed by `onResult`: the registry plus the two
caller-supplied filters (`categoryFilter`, `rssiThreshold`). -/
structure RegistryState where
  devices : List DetectedDevice
  categoryFilter : Nat
  rssiThreshold : Int
deriving DecidableEq

/-- Start-up state of main.cpp: empty registry, `DEFAULT_CATEGORY_FILTER`,
RSSI floor −80 dBm. -/
def initialRegistry : RegistryState :=
  { devices := [], categoryFilter := DEFAULT_CATEGORY_FILTER, rssiThreshold := -80 }

/-- `ScanCallbacks::onResult`: match the payload, apply the category and
RSSI filters, then update the registry. -/
def onResult (st : RegistryState) (payload : List Nat) (mac : List Nat)
    (rssi : Int) (now : Nat) : RegistryState :=
  match matchSignature payload with
  | none => st
  | some sig =>
    if sig.category &&& st.categoryFilter = 0 then st
    else if rssi < st.rssiThreshold then st
    else { st with devices := regInsertOrUpdate st.devices sig mac rssi now }

/-! ## Name resolution (`TXManager::findSignatureByName`) -/

/-- ASCII `tolower` on one byte. -/
def lowerByte (n : Nat) : Nat :=
  if 65 ≤ n ∧ n ≤ 90 then n + 32 else n

/-- The byte string of `s` with ASCII letters lowered (all catalog names
are ASCII). -/
def lowerStr (s : String) : List Nat :=
  s.toList.map (fun c => lowerByte c.toNat)

/-- `strcasecmp(a, b) == 0`: ASCII case-insensitive string equality. -/
def strCaseEq (a b : String) : Bool :=
  lowerStr a == lowerStr b

/-- `pat` occurs as a contiguous run inside `l`. -/
def containsRun (pat l : List Nat) : Bool :=
  (List.range (l.length + 1)).any (fun j => pat.isPrefixOf (l.drop j))

/-- `strcasestr(hay, needle) != nullptr`: case-insensitive substring
containment. -/
def strCaseContains (hay needle : String) : Bool :=
  containsRun (lowerStr needle) (lowerStr hay)

/-- `TXManager::findSignatureByName`: first pass exact case-insensitive
name match restricted to transmittable entries, second pass substring
containment fallback. -/
def findSignatureByName (name : String) : Option DeviceSignature :=
  match BUILTIN_SIGNATURES.find?
      (fun s => strCaseEq s.name name && hasFlagB s SIG_FLAG_TRANSMITTABLE) with
  | some s => some s
  | none =>
    BUILTIN_SIGNATURES.find?
      (fun s => strCaseContains s.name name && hasFlagB s SIG_FLAG_TRANSMITTABLE)

/-! ## TX sessions (`tx_session_t`, `TXManager`) -/

/-- `tx_session_t`. `sig` is `none` exactly when the C pointer is null
(zero-initialised slot). -/
structure TxSession where
  deviceName : String
  sig : Option DeviceSignature
  intervalMs : Nat
  remainingCount : Int
  packetsSent : Nat
  lastTxTime : Nat
  currentMac : List Nat
  randomMacPerPacket : Bool
  active : Bool
deriving DecidableEq

/-- A zero-initialised session slot. -/
def emptySession : TxSession :=
  { deviceName := "", sig := none, intervalMs := 0, remainingCount := 0
  , packetsSent := 0, lastTxTime := 0, currentMac := [0, 0, 0, 0, 0, 0]
  , randomMacPerPacket := false, active := false }

/-- `TXManager::transmitPacket` restricted to its effect on the session:
no-op when inactive or without a signature; otherwise regenerate the MAC if
requested (`newMac` models the `generateRandomMac` output), bump
`packetsSent`, stamp `lastTxTime := now`, and decrement `remainingCount`
when positive, deactivating when the decrement reaches zero. -/
def transmitPacket (newMac : List Nat) (now : Nat) (s : TxSession) : TxSession :=
  if !s.active || s.sig.isNone then s
  else
    { s with
      currentMac := if s.randomMacPerPacket then newMac else s.currentMac
    , packetsSent := s.packetsSent + 1
    , lastTxTime := now
    , remainingCount := if 0 < s.remainingCount then s.remainingCount - 1 else s.remainingCount
    , active := if 0 < s.remainingCount then s.remainingCount - 1 ≠ 0 else s.active }

/-- `k` successive due transmits of one session. -/
def iterTransmit (newMac : List Nat) (now : Nat) : Nat → TxSession → TxSession
  | 0, s => s
  | k + 1, s => iterTransmit newMac now k (transmitPacket newMac now s)

/-! ## TX manager state -/

/-- `confusion_entry_t`. -/
structure ConfEntry where
  deviceName : String
  sig : Option DeviceSignature
  instanceCount : Nat
  enabled : Bool

/-- A disabled (zero-initialised) confusion slot. -/
def emptyConfEntry : ConfEntry :=
  { deviceName := "", sig := none, instanceCount := 0, enabled := false }

/-- The `TXManager` mutable state: the 8-slot session pool (a list of
`TX_MAX_CONCURRENT` slots), the 16 confusion slots, the confusion flag,
total packet counter and round-robin index. -/
structure TxState where
  sessions : List TxSession
  confusionEntries : Fin TX_CONFUSION_MAX_DEVICES → ConfEntry
  confusionActive : Bool
  totalPacketsSent : Nat
  confusionIndex : Fin TX_CONFUSION_MAX_DEVICES

/-- The constructed `TXManager`: all slots zeroed, confusion off. -/
def initialTxState : TxState :=
  { sessions := List.replicate TX_MAX_CONCURRENT emptySession
  , confusionEntries := fun _ => emptyConfEntry
  , confusionActive := false
  , totalPacketsSent := 0
  , confusionIndex := 0 }

/-- `TXManager::findSession`: first active session whose stored name equals
the queried name case-insensitively. -/
def findSession (sessions : List TxSession) (deviceName : String) : Option TxSession :=
  sessions.find? (fun s => s.active && strCaseEq s.deviceName deviceName)

/-- `TXManager::startTx` result codes. -/
inductive StartResult where
  | notFound
  | alreadyActive
  | noCapacity
  | started (slot : Nat)
deriving DecidableEq

/-- `TXManager::startTx`. `initialMac` models the `generateRandomMac`
output stored in the fresh session. -/
def startTx (st : TxState) (deviceName : String) (intervalMs : Nat) (count : Int)
    (randomMac : Bool) (initialMac : List Nat) : TxState × StartResult :=
  match findSignatureByName deviceName with
  | none => (st, StartResult.notFound)
  | some sig =>
    match findSession st.sessions deviceName with
    | some _ => (st, StartResult.alreadyActive)
    | none =>
      match st.sessions.findIdx? (fun s => !s.active) with
      | none => (st, StartResult.noCapacity)
      | some slot =>
        let session : TxSession :=
          { deviceName := sig.name, sig := some sig, intervalMs := intervalMs
          , remainingCount := count, packetsSent := 0, lastTxTime := 0
          , currentMac := initialMac, randomMacPerPacket := randomMac
          , active := true }
        ({ st with sessions := st.sessions.set slot session }, StartResult.started slot)

/-- `TXManager::stopAll`: deactivate every session slot and clear the
confusion-active flag; confusion entries are not touched. -/
def stopAll (st : TxState) : TxState :=
  { st with
    sessions := st.sessions.map (fun s => { s with active := false })
  , confusionActive := false }

/-! ## Confusion scheduler (`TXManager::transmitConfusionPacket`) -/

/-- The circular scan of the do-while loop: examine at most `fuel` slots
starting at `idx` (the loop body runs once per slot until the index wraps
back to `startIndex`, i.e. at most `TX_CONFUSION_MAX_DEVICES` times), and
return the first enabled slot. -/
def scanNext (entries : Fin TX_CONFUSION_MAX_DEVICES → ConfEntry)
    (idx : Fin TX_CONFUSION_MAX_DEVICES) : Nat → Option (Fin TX_CONFUSION_MAX_DEVICES)
  | 0 => none
  | fuel + 1 => if (entries idx).enabled then some idx else scanNext entries (idx + 1) fuel

/-- `TXManager::transmitConfusionPacket`. Returns the new state and the
slot transmitted this tick (`none` when nothing was sent). When a slot is
found, `buildAdvertisingData` always yields a non-empty payload (the Flags
record), so the transmission and `_totalPacketsSent++` always happen, and
the index advances one past the slot; when no slot is enabled the index
wraps back to its starting value and the state is unchanged. -/
def transmitConfusionPacket (st : TxState) : TxState × Option (Fin TX_CONFUSION_MAX_DEVICES) :=
  if !st.confusionActive then (st, none)
  else
    match scanNext st.confusionEntries st.confusionIndex TX_CONFUSION_MAX_DEVICES with
    | none => (st, none)
    | some i =>
      ({ st with totalPacketsSent := st.totalPacketsSent + 1, confusionIndex := i + 1 }, some i)

/-- State after a confusion tick. -/
def tickState (st : TxState) : TxState := (transmitConfusionPacket st).1

/-- Slot transmitted by a confusion tick. -/
def tickOut (st : TxState) : Option (Fin TX_CONFUSION_MAX_DEVICES) :=
  (transmitConfusionPacket st).2

/-- `n` consecutive confusion ticks. -/
def tickIter : Nat → TxState → TxState
  | 0, st => st
  | n + 1, st => tickIter n (tickState st)

/-- A `TXManager` state right after `confuseStart` (`_confusionActive =
true`, `_confusionIndex = 0`) whose enabled confusion slots are exactly
`a`, `b`, `c`. -/
def mkConfState (a b c : Fin TX_CONFUSION_MAX_DEVICES) : TxState :=
  { sessions := List.replicate TX_MAX_CONCURRENT emptySession
  , confusionEntries := fun i =>
      if i = a ∨ i = b ∨ i = c then
        { deviceName := "", sig := some airtagRegistered, instanceCount := 1, enabled := true }
      else emptyConfEntry
  , confusionActive := true
  , totalPacketsSent := 0
  , confusionIndex := 0 }

/-- A syntactically valid `device_signature_t` a future catalog could
contain: its `pattern_length` (29) exceeds the 25 bytes that fit next to
the 3-byte Flags record and the 2-byte record header inside the 31-byte
advertisement buffer. `buildAdvertisingData` has no defensive length
check, so it writes 34 bytes into `uint8_t advData[31]`. -/
def oversizedSignature : DeviceSignature :=
  { name := "Oversized Custom", category := CAT_TRACKER, company_id := 0x004C
  , payload_pattern := [0x4C, 0x00, 0x01, 0x02, 0x03, 0x04, 0x05, 0x06], pattern_length := 29
  , pattern_offset := 0, service_uuid := 0, threat_level := THREAT_LOW
  , flags := SIG_FLAG_COMPANY_ID ||| SIG_FLAG_PAYLOAD ||| SIG_FLAG_TRANSMITTABLE }

/-! ## Helper lemmas -/

theorem patternBytes_length (sig : DeviceSignature) :
    (patternBytes sig).length = sig.pattern_length := by
  simp only [patternBytes, List.length_append, List.length_take, List.length_replicate]
  omega

theorem buildAdvertisingData_length (rng : Nat → Nat) (sig : DeviceSignature) :
    (buildAdvertisingData rng sig).length = advLen sig := by
  unfold buildAdvertisingData advLen
  split_ifs <;>
    (try simp only [List.length_append, List.length_cons, List.length_nil, List.length_map,
      List.length_range, patternBytes_length]) <;>
    (try split_ifs) <;>
    (try simp only [List.length_append, List.length_cons, List.length_nil, List.length_map,
      List.length_range, patternBytes_length]) <;>
    omega

theorem scanNext_none (entries : Fin TX_CONFUSION_MAX_DEVICES → ConfEntry)
    (h : ∀ i, (entries i).enabled = false) :
    ∀ fuel idx, scanNext entries idx fuel = none := by
  intro fuel
  induction fuel with
  | zero => intro idx; rfl
  | succ n ih =>
    intro idx
    unfold scanNext
    rw [h idx]
    simpa using ih (idx + 1)

theorem iterTransmit_succ (mac : List Nat) (now : Nat) (k : Nat) (s : TxSession) :
    iterTransmit mac now (k + 1) s = iterTransmit mac now k (transmitPacket mac now s) := rfl

theorem sig_isNone_false (s : TxSession) (h : s.sig.isSome = true) : s.sig.isNone = false := by
  cases hs : s.sig with
  | none => rw [hs] at h; simp at h
  | some v => rfl

theorem transmitPacket_step (mac : List Nat) (now : Nat) (s : TxSession)
    (hact : s.active = true) (hsig : s.sig.isSome = true) :
    (transmitPacket mac now s).packetsSent = s.packetsSent + 1 ∧
    (transmitPacket mac now s).sig = s.sig ∧
    (transmitPacket mac now s).lastTxTime = now ∧
    (transmitPacket mac now s).remainingCount
      = (if 0 < s.remainingCount then s.remainingCount - 1 else s.remainingCount) ∧
    (transmitPacket mac now s).active
      = (if 0 < s.remainingCount then decide (s.remainingCount - 1 ≠ 0) else true) := by
  have hnn := sig_isNone_false s hsig
  unfold transmitPacket
  rw [hact, hnn]
  by_cases hp : 0 < s.remainingCount <;> simp [hp, hact]

theorem iterTransmit_nonpos (mac : List Nat) (now : Nat) :
    ∀ (k : Nat) (s : TxSession), s.active = true → s.sig.isSome = true →
      s.remainingCount ≤ 0 →
      (iterTransmit mac now k s).active = true ∧
      (iterTransmit mac now k s).packetsSent = s.packetsSent + k ∧
      (1 ≤ k → (iterTransmit mac now k s).lastTxTime = now) := by
  intro k
  induction k with
  | zero => intro s h1 h2 h3; exact ⟨h1, rfl, fun h => absurd h (by omega)⟩
  | succ n ih =>
    intro s h1 h2 h3
    obtain ⟨t1, t2, t3, t4, t5⟩ := transmitPacket_step mac now s h1 h2
    have hnp : ¬ 0 < s.remainingCount := by omega
    rw [if_neg hnp] at t4 t5
    obtain ⟨a1, a2, a3⟩ :=
      ih (transmitPacket mac now s) t5 (by rw [t2]; exact h2) (by rw [t4]; exact h3)
    rw [iterTransmit_succ]
    refine ⟨a1, by rw [a2, t1]; omega, fun _ => ?_⟩
    cases n with
    | zero => exact t3
    | succ m => exact a3 (by omega)

theorem iterTransmit_pos (mac : List Nat) (now : Nat) :
    ∀ (n : Nat) (s : TxSession), s.active = true → s.sig.isSome = true →
      s.remainingCount = (n : Int) + 1 →
      ((iterTransmit mac now (n + 1) s).active = false ∧
       (iterTransmit mac now (n + 1) s).packetsSent = s.packetsSent + (n + 1) ∧
       (iterTransmit mac now (n + 1) s).lastTxTime = now) ∧
      ∀ k, k ≤ n →
        (iterTransmit mac now k s).active = true ∧
        (iterTransmit mac now k s).packetsSent = s.packetsSent + k ∧
        (1 ≤ k → (iterTransmit mac now k s).lastTxTime = now) := by
  intro n
  induction n with
  | zero =>
    intro s h1 h2 h3
    obtain ⟨t1, _, t3, t4, t5⟩ := transmitPacket_step mac now s h1 h2
    have hp : 0 < s.remainingCount := by omega
    rw [if_pos hp, h3] at t4 t5
    refine ⟨⟨?_, ?_, ?_⟩, ?_⟩
    · rw [iterTransmit_succ]
      show (transmitPacket mac now s).active = false
      rw [t5]; decide
    · rw [iterTransmit_succ]
      show (transmitPacket mac now s).packetsSent = s.packetsSent + 1
      exact t1
    · rw [iterTransmit_succ]
      show (transmitPacket mac now s).lastTxTime = now
      exact t3
    · intro k hk
      have hk0 : k = 0 := by omega
      subst hk0
      exact ⟨h1, rfl, fun h => absurd h (by omega)⟩
  | succ m ih =>
    intro s h1 h2 h3
    obtain ⟨t1, t2, t3, t4, t5⟩ := transmitPacket_step mac now s h1 h2
    have hp : 0 < s.remainingCount := by omega
    rw [if_pos hp, h3] at t4 t5
    have hact2 : (transmitPacket mac now s).active = true := by
      rw [t5]
      simp only [decide_eq_true_eq]
      push_cast
      omega
    have hrc2 : (transmitPacket mac now s).remainingCount = (m : Int) + 1 := by
      rw [t4]; push_cast; ring
    obtain ⟨⟨f1, f2, f3⟩, bd⟩ :=
      ih (transmitPacket mac now s) hact2 (by rw [t2]; exact h2) hrc2
    refine ⟨⟨?_, ?_, ?_⟩, ?_⟩
    · rw [iterTransmit_succ]; exact f1
    · rw [iterTransmit_succ, f2, t1]; omega
    · rw [iterTransmit_succ]; exact f3
    · intro k hk
      cases k with
      | zero => exact ⟨h1, rfl, fun h => absurd h (by omega)⟩
      | succ j =>
        have hj : j ≤ m := by omega
        obtain ⟨b1, b2, b3⟩ := bd j hj
        rw [iterTransmit_succ]
        refine ⟨b1, by rw [b2, t1]; omega, fun _ => ?_⟩
        cases j with
        | zero => exact t3
        | succ i => exact b3 (by omega)

theorem startTx_snd_alreadyActive (st : TxState) (name : String) (iv : Nat) (cnt : Int)
    (rm : Bool) (mac : List Nat) (sig : DeviceSignature)
    (h1 : findSignatureByName name = some sig)
    (h2 : (findSession st.sessions name).isSome = true) :
    (startTx st name iv cnt rm mac).2 = StartResult.alreadyActive := by
  obtain ⟨x, hx⟩ := Option.isSome_iff_exists.mp h2
  unfold startTx
  rw [h1, hx]

theorem findSession_isSome_of_set (sessions : List TxSession) (slot : Nat)
    (sess : TxSession) (name : String) (hlt : slot < sessions.length)
    (hact : sess.active = true) (heq : strCaseEq sess.deviceName name = true) :
    (findSession (sessions.set slot sess) name).isSome = true := by
  unfold findSession
  rw [List.find?_isSome]
  exact ⟨sess, List.mem_set sessions slot hlt sess, by rw [hact, heq]; rfl⟩

theorem any_mac_false (devs : List DetectedDevice) (mac : List Nat)
    (h : ∀ e ∈ devs, e.mac ≠ mac) :
    devs.any (fun d => d.mac == mac) = false := by
  rw [Bool.eq_false_iff]
  intro hc
  obtain ⟨d, hm, hp⟩ := List.any_eq_true.mp hc
  exact h d hm (by simpa using hp)

theorem updateFirstMac_append (mac : List Nat) (rssi : Int) (now : Nat) :
    ∀ (l1 : List DetectedDevice) (d : DetectedDevice) (l2 : List DetectedDevice),
      (∀ e ∈ l1, e.mac ≠ mac) → d.mac = mac →
      updateFirstMac mac rssi now (l1 ++ d :: l2) = l1 ++ refreshDevice rssi now d :: l2 := by
  intro l1
  induction l1 with
  | nil =>
    intro d l2 h1 hd
    simp [updateFirstMac, hd]
  | cons e l ih =>
    intro d l2 h1 hd
    have he : (e.mac == mac) = false := by
      simpa using h1 e (List.mem_cons_self e l)
    simp only [List.cons_append, updateFirstMac, he, Bool.false_eq_true, if_false]
    rw [List.append_eq, ih d l2 (fun x hx => h1 x (List.mem_cons_of_mem e hx)) hd]

theorem regInsertOrUpdate_new (devs : List DetectedDevice) (sig : DeviceSignature)
    (mac : List Nat) (rssi : Int) (now : Nat)
    (h : ∀ e ∈ devs, e.mac ≠ mac) (hlen : devs.length < DETECTED_DEVICES_MAX) :
    regInsertOrUpdate devs sig mac rssi now = devs ++ [mkDetectedDevice sig mac rssi now] := by
  unfold regInsertOrUpdate
  simp [any_mac_false devs mac h, hlen]

/-! ## Claims -/

/-- C3 (confirmed): the advertisement payload `02 01 06 06 FF 4C 00 07 19
AA` matches the AirTag (Registered) signature — company id `0x004C`,
pattern `4C 00 07 19` at offset 0, length 4 — and feeding that match with
address `AA:BB:CC:DD:EE:FF` at signal level −42 under the default filters
creates exactly one registry entry, with `detection_count = 1`. -/
theorem claim_C3 (now : Nat) :
    matchSignature [0x02, 0x01, 0x06, 0x06, 0xFF, 0x4C, 0x00, 0x07, 0x19, 0xAA]
      = some airtagRegistered ∧
    airtagRegistered.company_id = 0x004C ∧
    patternBytes airtagRegistered = [0x4C, 0x00, 0x07, 0x19] ∧
    airtagRegistered.pattern_offset = 0 ∧
    airtagRegistered.pattern_length = 4 ∧
    (onResult initialRegistry [0x02, 0x01, 0x06, 0x06, 0xFF, 0x4C, 0x00, 0x07, 0x19, 0xAA]
        [0xAA, 0xBB, 0xCC, 0xDD, 0xEE, 0xFF] (-42) now).devices
      = [mkDetectedDevice airtagRegistered [0xAA, 0xBB, 0xCC, 0xDD, 0xEE, 0xFF] (-42) now] ∧
    (mkDetectedDevice airtagRegistered [0xAA, 0xBB, 0xCC, 0xDD, 0xEE, 0xFF] (-42) now).detectionCount
      = 1 :=
  ⟨rfl, rfl, rfl, rfl, rfl, rfl, rfl⟩

/-- C1 (counterexample): the round-trip fails. `AirTag (Unregistered)` is
transmittable with a fixed-offset pattern, yet the matcher applied to its
forged advertisement returns `AirTag (Registered)` — the earlier catalog
entry with the same company id matches first under the OR combination, so
`match(forge(S)) ≠ S`. -/
theorem claim_C1_counterexample :
    matchSignature (buildAdvertisingData (fun _ => 0) airtagUnregistered)
      = some airtagRegistered ∧
    airtagRegistered ≠ airtagUnregistered ∧
    hasFlagB airtagUnregistered SIG_FLAG_TRANSMITTABLE = true ∧
    airtagUnregistered.pattern_offset = 0 ∧
    0 < airtagUnregistered.pattern_length := by
  exact ⟨rfl, by decide, rfl, rfl, by decide⟩

/-- C1 (amended): for each transmittable signature with a fixed-offset
pattern, `match(forge(S))` returns the first catalog signature carrying
the same company id as `S` — which is `S` itself exactly when `S` is the
first of its company (AirTag (Registered), Samsung SmartTag), and the
earlier same-company signature otherwise (AirTag (Unregistered),
Samsung SmartTag2). This holds for every random filler stream `rng`. -/
theorem claim_C1_amended (rng : Nat → Nat) :
    matchSignature (buildAdvertisingData rng airtagRegistered) = some airtagRegistered ∧
    matchSignature (buildAdvertisingData rng airtagUnregistered) = some airtagRegistered ∧
    matchSignature (buildAdvertisingData rng samsungSmartTag) = some samsungSmartTag ∧
    matchSignature (buildAdvertisingData rng samsungSmartTag2) = some samsungSmartTag ∧
    BUILTIN_SIGNATURES.find? (fun s => s.company_id == airtagUnregistered.company_id)
      = some airtagRegistered ∧
    BUILTIN_SIGNATURES.find? (fun s => s.company_id == samsungSmartTag2.company_id)
      = some samsungSmartTag :=
  ⟨rfl, rfl, rfl, rfl, rfl, rfl⟩

/-- C7 (code bug): the forger's output length equals the closed form
`advLen`; no built-in signature exceeds the 31-byte ceiling, but
`buildAdvertisingData` never bounds the length, so the representable
signature `oversizedSignature` (pattern length 29 at offset 0) makes it
emit 34 bytes — past the 31-byte `advData` buffer — for every random
stream, violating the ≤31 contract the spec requires for arbitrary future
signatures. -/
theorem claim_C7 :
    (∀ rng sig, (buildAdvertisingData rng sig).length = advLen sig) ∧
    (∀ rng, (buildAdvertisingData rng oversizedSignature).length = 34) ∧
    31 < advLen oversizedSignature ∧
    BUILTIN_SIGNATURES.all (fun sig => advLen sig ≤ 31) = true := by
  refine ⟨buildAdvertisingData_length, ?_, by decide, by decide⟩
  intro rng
  rw [buildAdvertisingData_length]
  decide

/-- C9 (confirmed): `stopAll` deactivates every transmit session and also
clears the confusion-active flag (so `isConfusionActive()` is false
afterwards), while the confusion entry array, the session names, the
total packet counter and the round-robin index are left unchanged. -/
theorem claim_C9 (st : TxState) :
    ((stopAll st).sessions.all (fun s => !s.active)) = true ∧
    (stopAll st).sessions.length = st.sessions.length ∧
    (stopAll st).sessions.map (fun s => s.deviceName)
      = st.sessions.map (fun s => s.deviceName) ∧
    (stopAll st).confusionActive = false ∧
    (stopAll st).confusionEntries = st.confusionEntries ∧
    (stopAll st).totalPacketsSent = st.totalPacketsSent ∧
    (stopAll st).confusionIndex = st.confusionIndex := by
  refine ⟨?_, ?_, ?_, rfl, rfl, rfl, rfl⟩ <;>
    simp [stopAll, List.all_eq_true]

/-- C8 (confirmed): whenever the record scan aborts — zero length byte or
a record overrunning the buffer — before finding a well-formed
Manufacturer Specific Data record, the matcher sees no manufacturer data,
so every signature's company-id check fails and a signature matches
exactly when it is a non-exact payload signature whose pattern is found;
the match attempt completes normally, and a pattern-only match can still
succeed (payload `00 EC FE` aborts the scan yet matches Tile). -/
theorem claim_C8 (p : List Nat) (h : scanMfg p = ScanOut.aborted) :
    mfgOf p = none ∧
    (∀ sig, sigMatches (mfgOf p) p sig
        = (hasFlagB sig SIG_FLAG_PAYLOAD && decide (0 < sig.pattern_length) &&
           !hasFlagB sig SIG_FLAG_EXACT_MATCH && patternFoundB p sig)) ∧
    scanMfg [0x00, 0xEC, 0xFE] = ScanOut.aborted ∧
    matchSignature [0x00, 0xEC, 0xFE] = some tileSig := by
  have hm : mfgOf p = none := by unfold mfgOf; rw [h]
  refine ⟨hm, ?_, rfl, rfl⟩
  intro sig
  rw [hm]
  unfold sigMatches companyMatchB
  cases hp : (hasFlagB sig SIG_FLAG_PAYLOAD && decide (0 < sig.pattern_length)) <;>
    cases he : hasFlagB sig SIG_FLAG_EXACT_MATCH <;>
      simp [hp, he]

/-- C8 witness: the truncated payload `05 01` (record length 5 overruns
the 2-byte buffer) aborts the scan and yields no manufacturer data. -/
theorem claim_C8_witness :
    scanMfg [0x05, 0x01] = ScanOut.aborted ∧ mfgOf [0x05, 0x01] = none :=
  ⟨rfl, (claim_C8 [0x05, 0x01] rfl).1⟩

/-- C10 (confirmed): a confusion tick in an active state with no enabled
entry transmits nothing and leaves the state — including the total packet
counter and the round-robin index — unchanged; the circular scan already
returns empty-handed within one full pass over the
`TX_CONFUSION_MAX_DEVICES` slots (the fuel of `scanNext`), which is
exactly where the C do-while loop wraps back to its start index and
exits. -/
theorem claim_C10 (st : TxState) (hact : st.confusionActive = true)
    (hnone : ∀ i, (st.confusionEntries i).enabled = false) :
    transmitConfusionPacket st = (st, none) ∧
    scanNext st.confusionEntries st.confusionIndex TX_CONFUSION_MAX_DEVICES = none := by
  have hs := scanNext_none st.confusionEntries hnone TX_CONFUSION_MAX_DEVICES st.confusionIndex
  refine ⟨?_, hs⟩
  unfold transmitConfusionPacket
  rw [hact, hs]
  rfl

/-- C10 witness: a freshly constructed manager with the confusion flag
forced on (all 16 entry slots still disabled) ticks to itself with no
transmission. -/
theorem claim_C10_witness :
    transmitConfusionPacket { initialTxState with confusionActive := true }
      = ({ initialTxState with confusionActive := true }, none) :=
  (claim_C10 { initialTxState with confusionActive := true } rfl (fun _ => rfl)).1

set_option maxHeartbeats 4000000 in
/-- C5 (confirmed): for any three distinct confusion slots `a < b < c`
that are exactly the enabled entries — whatever order they were added in,
this covers every slot layout — consecutive ticks from the
post-`confuseStart` state transmit one packet each in the cyclic order
`a, b, c, a, …`, never skipping an enabled entry within a cycle, with the
total packet counter advancing by exactly one per tick; and in any state
whatsoever a tick performs at most one transmission. -/
theorem claim_C5 :
    (∀ a b c : Fin TX_CONFUSION_MAX_DEVICES, a < b → b < c →
       tickOut (mkConfState a b c) = some a ∧
       tickOut (tickIter 1 (mkConfState a b c)) = some b ∧
       tickOut (tickIter 2 (mkConfState a b c)) = some c ∧
       tickOut (tickIter 3 (mkConfState a b c)) = some a ∧
       (tickIter 1 (mkConfState a b c)).totalPacketsSent = 1 ∧
       (tickIter 2 (mkConfState a b c)).totalPacketsSent = 2 ∧
       (tickIter 3 (mkConfState a b c)).totalPacketsSent = 3 ∧
       (tickIter 4 (mkConfState a b c)).totalPacketsSent = 4) ∧
    (∀ st : TxState, (tickState st).totalPacketsSent ≤ st.totalPacketsSent + 1) := by
  constructor
  · decide
  · intro st
    unfold tickState transmitConfusionPacket
    cases st.confusionActive
    · simp
    · cases hscan : scanNext st.confusionEntries st.confusionIndex TX_CONFUSION_MAX_DEVICES <;>
        simp [hscan]

/-- C5 witness: slots 0, 1, 2 enabled; the first four ticks transmit
0, 1, 2, 0. -/
theorem claim_C5_witness :
    tickOut (mkConfState 0 1 2) = some 0 ∧
    tickOut (tickIter 1 (mkConfState 0 1 2)) = some 1 ∧
    tickOut (tickIter 2 (mkConfState 0 1 2)) = some 2 ∧
    tickOut (tickIter 3 (mkConfState 0 1 2)) = some 0 :=
  ⟨(claim_C5.1 0 1 2 (by decide) (by decide)).1,
   (claim_C5.1 0 1 2 (by decide) (by decide)).2.1,
   (claim_C5.1 0 1 2 (by decide) (by decide)).2.2.1,
   (claim_C5.1 0 1 2 (by decide) (by decide)).2.2.2.1⟩

/-- C4 (counterexample): a session started with the finite count 0 —
which, per the claim, should be deactivated after exactly 0 transmitted
packets — is allocated active (`remainingCount = 0`), and a due transmit
still sends a packet (incrementing `packets_sent` and updating
`last_transmit_time` to the transmission instant) and leaves it active:
`transmitPacket` only decrements and deactivates when
`remainingCount > 0`, so a count-0 session transmits forever, like a
negative count. -/
theorem claim_C4_counterexample :
    (startTx initialTxState "AirTag (Registered)" 100 0 true [2, 0, 0, 0, 0, 0]).2
      = StartResult.started 0 ∧
    ((startTx initialTxState "AirTag (Registered)" 100 0 true
        [2, 0, 0, 0, 0, 0]).1.sessions.headD emptySession).remainingCount = 0 ∧
    ((startTx initialTxState "AirTag (Registered)" 100 0 true
        [2, 0, 0, 0, 0, 0]).1.sessions.headD emptySession).active = true ∧
    (transmitPacket [2, 0, 0, 0, 0, 0] 5
        ((startTx initialTxState "AirTag (Registered)" 100 0 true
          [2, 0, 0, 0, 0, 0]).1.sessions.headD emptySession)).active = true ∧
    (transmitPacket [2, 0, 0, 0, 0, 0] 5
        ((startTx initialTxState "AirTag (Registered)" 100 0 true
          [2, 0, 0, 0, 0, 0]).1.sessions.headD emptySession)).packetsSent = 1 ∧
    (transmitPacket [2, 0, 0, 0, 0, 0] 5
        ((startTx initialTxState "AirTag (Registered)" 100 0 true
          [2, 0, 0, 0, 0, 0]).1.sessions.headD emptySession)).lastTxTime = 5 :=
  ⟨rfl, rfl, rfl, rfl, rfl, rfl⟩

/-- C4 (amended): for every active session with a signature, a *positive*
finite count `n` gives exactly `n` due transmits — each incrementing
`packets_sent` and updating `last_transmit_time` to the transmission
instant (so after every transmit, i.e. whenever at least one packet has
gone out, `lastTxTime = now`) — with deactivation exactly at the `n`-th,
the first `n − 1` leaving it active; a count ≤ 0 (the code treats the
start value 0 like a negative count, not as an exhausted one) keeps the
session active and transmitting, still updating `packets_sent` and
`last_transmit_time` each time, until explicitly stopped. -/
theorem claim_C4_amended (mac : List Nat) (now : Nat) (s : TxSession) (n : Nat)
    (hact : s.active = true) (hsig : s.sig.isSome = true) :
    (s.remainingCount = (n : Int) → 0 < n →
       ((iterTransmit mac now n s).active = false ∧
        (iterTransmit mac now n s).packetsSent = s.packetsSent + n ∧
        (iterTransmit mac now n s).lastTxTime = now ∧
        ∀ k, k < n →
          ((iterTransmit mac now k s).active = true ∧
           (iterTransmit mac now k s).packetsSent = s.packetsSent + k ∧
           (1 ≤ k → (iterTransmit mac now k s).lastTxTime = now)))) ∧
    (s.remainingCount ≤ 0 →
       ∀ k, (iterTransmit mac now k s).active = true ∧
         (iterTransmit mac now k s).packetsSent = s.packetsSent + k ∧
         (1 ≤ k → (iterTransmit mac now k s).lastTxTime = now)) := by
  constructor
  · intro hrc hn
    obtain ⟨m, rfl⟩ : ∃ m, n = m + 1 := ⟨n - 1, by omega⟩
    have h3 : s.remainingCount = (m : Int) + 1 := by rw [hrc]; push_cast; ring
    obtain ⟨⟨f1, f2, f3⟩, bd⟩ := iterTransmit_pos mac now m s hact hsig h3
    exact ⟨f1, f2, f3, fun k hk => bd k (by omega)⟩
  · intro hrc k
    exact iterTransmit_nonpos mac now k s hact hsig hrc

/-- C4 witness: a concrete active AirTag session with count 2 transmits
twice, stays active after the first transmit, and after the second is
inactive with `packets_sent = 2` and `last_transmit_time` stamped to the
transmission time 5. -/
theorem claim_C4_witness :
    (iterTransmit [2, 0, 0, 0, 0, 0] 5 2
        { deviceName := "AirTag (Registered)", sig := some airtagRegistered
        , intervalMs := 100, remainingCount := 2, packetsSent := 0, lastTxTime := 0
        , currentMac := [2, 0, 0, 0, 0, 0], randomMacPerPacket := false
        , active := true }).active = false ∧
    (iterTransmit [2, 0, 0, 0, 0, 0] 5 2
        { deviceName := "AirTag (Registered)", sig := some airtagRegistered
        , intervalMs := 100, remainingCount := 2, packetsSent := 0, lastTxTime := 0
        , currentMac := [2, 0, 0, 0, 0, 0], randomMacPerPacket := false
        , active := true }).packetsSent = 0 + 2 ∧
    (iterTransmit [2, 0, 0, 0, 0, 0] 5 2
        { deviceName := "AirTag (Registered)", sig := some airtagRegistered
        , intervalMs := 100, remainingCount := 2, packetsSent := 0, lastTxTime := 0
        , currentMac := [2, 0, 0, 0, 0, 0], randomMacPerPacket := false
        , active := true }).lastTxTime = 5 ∧
    (iterTransmit [2, 0, 0, 0, 0, 0] 5 1
        { deviceName := "AirTag (Registered)", sig := some airtagRegistered
        , intervalMs := 100, remainingCount := 2, packetsSent := 0, lastTxTime := 0
        , currentMac := [2, 0, 0, 0, 0, 0], randomMacPerPacket := false
        , active := true }).active = true := by
  have h := (claim_C4_amended [2, 0, 0, 0, 0, 0] 5
    { deviceName := "AirTag (Registered)", sig := some airtagRegistered
    , intervalMs := 100, remainingCount := 2, packetsSent := 0, lastTxTime := 0
    , currentMac := [2, 0, 0, 0, 0, 0], randomMacPerPacket := false
    , active := true } 2 rfl rfl).1 (by decide) (by decide)
  exact ⟨h.1, h.2.1, h.2.2.1, (h.2.2.2 1 (by decide)).1⟩

/-- C2 (counterexample): the duplicate-session guard compares the
*request* string against stored session names, not the resolved
signature's name. The request "AirTag" resolves by substring fallback to
"AirTag (Registered)" both times, yet the second start is granted slot 1
instead of failing `AlreadyActive` — two active sessions for one resolved
device name. -/
theorem claim_C2_counterexample :
    (startTx initialTxState "AirTag" 100 (-1) true [2, 0, 0, 0, 0, 0]).2
      = StartResult.started 0 ∧
    (startTx (startTx initialTxState "AirTag" 100 (-1) true [2, 0, 0, 0, 0, 0]).1
        "AirTag" 100 (-1) true [2, 0, 0, 0, 0, 0]).2 = StartResult.started 1 ∧
    findSignatureByName "AirTag" = some airtagRegistered ∧
    ((startTx (startTx initialTxState "AirTag" 100 (-1) true [2, 0, 0, 0, 0, 0]).1
        "AirTag" 100 (-1) true [2, 0, 0, 0, 0, 0]).1.sessions.map
          (fun s => (s.deviceName, s.active))).take 2
      = [("AirTag (Registered)", true), ("AirTag (Registered)", true)] :=
  ⟨rfl, rfl, rfl, rfl⟩

/-- C2 (amended): `startTx` fails `NotFound` when no transmittable
signature resolves; otherwise fails `AlreadyActive` when an *active
session's stored name equals the requested name* case-insensitively (the
stored name is the resolved signature's name, so this coincides with the
claim only when the request equals the resolved name); otherwise fails
`NoCapacity` when no slot is free; otherwise fills the first free slot
with an active session carrying the resolved name. Consequently two
consecutive starts whose request equals the resolved signature's full
name (case-insensitively) yield `AlreadyActive` on the second attempt —
but not, per the counterexample, for substring requests. -/
theorem claim_C2_amended (st : TxState) (name : String) (iv : Nat) (cnt : Int)
    (rm : Bool) (mac : List Nat) :
    (findSignatureByName name = none →
       startTx st name iv cnt rm mac = (st, StartResult.notFound)) ∧
    (∀ sig, findSignatureByName name = some sig →
       (findSession st.sessions name).isSome = true →
       startTx st name iv cnt rm mac = (st, StartResult.alreadyActive)) ∧
    (∀ sig, findSignatureByName name = some sig →
       findSession st.sessions name = none →
       st.sessions.findIdx? (fun s => !s.active) = none →
       startTx st name iv cnt rm mac = (st, StartResult.noCapacity)) ∧
    (∀ sig slot, findSignatureByName name = some sig →
       findSession st.sessions name = none →
       st.sessions.findIdx? (fun s => !s.active) = some slot →
       startTx st name iv cnt rm mac =
         ({ st with
              sessions := st.sessions.set slot
                ({ deviceName := sig.name, sig := some sig, intervalMs := iv
                 , remainingCount := cnt, packetsSent := 0, lastTxTime := 0
                 , currentMac := mac, randomMacPerPacket := rm, active := true }) },
          StartResult.started slot)) ∧
    (∀ sig slot (iv2 : Nat) (cnt2 : Int) (rm2 : Bool) (mac2 : List Nat),
       findSignatureByName name = some sig →
       strCaseEq sig.name name = true →
       findSession st.sessions name = none →
       st.sessions.findIdx? (fun s => !s.active) = some slot →
       (startTx (startTx st name iv cnt rm mac).1 name iv2 cnt2 rm2 mac2).2
         = StartResult.alreadyActive) := by
  refine ⟨?_, ?_, ?_, ?_, ?_⟩
  · intro h
    unfold startTx
    rw [h]
  · intro sig h1 h2
    obtain ⟨x, hx⟩ := Option.isSome_iff_exists.mp h2
    unfold startTx
    rw [h1, hx]
  · intro sig h1 h2 h3
    unfold startTx
    rw [h1, h2, h3]
  · intro sig slot h1 h2 h3
    unfold startTx
    rw [h1, h2, h3]
  · intro sig slot iv2 cnt2 rm2 mac2 h1 heq h2 h3
    have hlt : slot < st.sessions.length :=
      (List.findIdx?_eq_some_iff_findIdx_eq.mp h3).1
    have h4 : startTx st name iv cnt rm mac =
        ({ st with
             sessions := st.sessions.set slot
               ({ deviceName := sig.name, sig := some sig, intervalMs := iv
                , remainingCount := cnt, packetsSent := 0, lastTxTime := 0
                , currentMac := mac, randomMacPerPacket := rm, active := true }) },
         StartResult.started slot) := by
      unfold startTx
      rw [h1, h2, h3]
    refine startTx_snd_alreadyActive _ name iv2 cnt2 rm2 mac2 sig h1 ?_
    have hsx : (startTx st name iv cnt rm mac).1.sessions
        = st.sessions.set slot
            ({ deviceName := sig.name, sig := some sig, intervalMs := iv
             , remainingCount := cnt, packetsSent := 0, lastTxTime := 0
             , currentMac := mac, randomMacPerPacket := rm, active := true }) := by
      rw [h4]
    rw [hsx]
    exact findSession_isSome_of_set st.sessions slot
      ({ deviceName := sig.name, sig := some sig, intervalMs := iv
       , remainingCount := cnt, packetsSent := 0, lastTxTime := 0
       , currentMac := mac, randomMacPerPacket := rm, active := true })
      name hlt rfl heq

/-- C2 witness: starting "AirTag (Registered)" twice by its exact name on
a fresh manager yields `AlreadyActive` on the second attempt. -/
theorem claim_C2_witness :
    (startTx (startTx initialTxState "AirTag (Registered)" 100 (-1) true
        [2, 0, 0, 0, 0, 0]).1 "AirTag (Registered)" 100 (-1) true
        [2, 0, 0, 0, 0, 0]).2 = StartResult.alreadyActive :=
  (claim_C2_amended initialTxState "AirTag (Registered)" 100 (-1) true
      [2, 0, 0, 0, 0, 0]).2.2.2.2 airtagRegistered 0 100 (-1) true
    [2, 0, 0, 0, 0, 0] rfl rfl rfl rfl

/-- C6 (confirmed): a filtered match for an address already in the
registry refreshes exactly the first (unique) entry with that address —
signal level, last-seen, incremented detection count, active — creating
nothing and preserving the length; a new address is appended with
detection count 1 and the signature's threat level while fewer than
`DETECTED_DEVICES_MAX` entries exist; at capacity the registry is
unchanged; and two matches of distinct new addresses create two
independent entries. -/
theorem claim_C6 (sig sig2 : DeviceSignature) (mac mac2 : List Nat)
    (rssi rssi2 : Int) (now now2 : Nat) :
    (∀ l1 d l2, (∀ e ∈ l1, e.mac ≠ mac) → d.mac = mac →
       regInsertOrUpdate (l1 ++ d :: l2) sig mac rssi now
         = l1 ++ refreshDevice rssi now d :: l2 ∧
       (refreshDevice rssi now d).detectionCount = d.detectionCount + 1 ∧
       (refreshDevice rssi now d).rssi = rssi ∧
       (refreshDevice rssi now d).lastSeen = now ∧
       (refreshDevice rssi now d).active = true ∧
       (l1 ++ refreshDevice rssi now d :: l2).length = (l1 ++ d :: l2).length) ∧
    (∀ devs, (∀ e ∈ devs, e.mac ≠ mac) → devs.length < DETECTED_DEVICES_MAX →
       regInsertOrUpdate devs sig mac rssi now
         = devs ++ [mkDetectedDevice sig mac rssi now] ∧
       (mkDetectedDevice sig mac rssi now).detectionCount = 1 ∧
       (mkDetectedDevice sig mac rssi now).threatLevel = sig.threat_level) ∧
    (∀ devs, (∀ e ∈ devs, e.mac ≠ mac) → DETECTED_DEVICES_MAX ≤ devs.length →
       regInsertOrUpdate devs sig mac rssi now = devs) ∧
    (∀ devs, mac ≠ mac2 → (∀ e ∈ devs, e.mac ≠ mac ∧ e.mac ≠ mac2) →
       devs.length + 2 ≤ DETECTED_DEVICES_MAX →
       regInsertOrUpdate (regInsertOrUpdate devs sig mac rssi now) sig2 mac2 rssi2 now2
         = devs ++ [mkDetectedDevice sig mac rssi now, mkDetectedDevice sig2 mac2 rssi2 now2]) := by
  refine ⟨?_, ?_, ?_, ?_⟩
  · intro l1 d l2 h1 hd
    refine ⟨?_, rfl, rfl, rfl, rfl, by simp⟩
    unfold regInsertOrUpdate
    have hany : (l1 ++ d :: l2).any (fun x => x.mac == mac) = true :=
      List.any_eq_true.mpr ⟨d, by simp, by simp [hd]⟩
    rw [hany]
    simp only [if_true]
    exact updateFirstMac_append mac rssi now l1 d l2 h1 hd
  · intro devs h1 hlen
    exact ⟨regInsertOrUpdate_new devs sig mac rssi now h1 hlen, rfl, rfl⟩
  · intro devs h1 hlen
    unfold regInsertOrUpdate
    simp [any_mac_false devs mac h1, hlen, Nat.not_lt.mpr hlen]
  · intro devs hne h1 hlen
    rw [regInsertOrUpdate_new devs sig mac rssi now (fun e he => (h1 e he).1) (by omega)]
    rw [regInsertOrUpdate_new (devs ++ [mkDetectedDevice sig mac rssi now]) sig2 mac2 rssi2 now2 ?hmem ?hlen2]
    · simp
    case hmem =>
      intro e he
      rcases List.mem_append.mp he with h | h
      · exact (h1 e h).2
      · simp only [List.mem_singleton] at h
        subst h
        simpa [mkDetectedDevice] using hne
    case hlen2 =>
      simp only [List.length_append, List.length_singleton]
      omega

/-- C6 witness: from the empty registry, a match of a fresh address
inserts one entry with detection count 1, and a second match of the same
address updates that single entry in place. -/
theorem claim_C6_witness :
    regInsertOrUpdate [] airtagRegistered [1, 2, 3, 4, 5, 6] (-42) 7
      = [mkDetectedDevice airtagRegistered [1, 2, 3, 4, 5, 6] (-42) 7] ∧
    regInsertOrUpdate [mkDetectedDevice airtagRegistered [1, 2, 3, 4, 5, 6] (-42) 7]
        airtagRegistered [1, 2, 3, 4, 5, 6] (-40) 9
      = [refreshDevice (-40) 9 (mkDetectedDevice airtagRegistered [1, 2, 3, 4, 5, 6] (-42) 7)] := by
  constructor
  · exact ((claim_C6 airtagRegistered airtagRegistered [1, 2, 3, 4, 5, 6] [1, 2, 3, 4, 5, 6]
      (-42) (-42) 7 7).2.1 [] (by simp) (by decide)).1
  · have := ((claim_C6 airtagRegistered airtagRegistered [1, 2, 3, 4, 5, 6] [1, 2, 3, 4, 5, 6]
      (-40) (-40) 9 9).1 [] (mkDetectedDevice airtagRegistered [1, 2, 3, 4, 5, 6] (-42) 7) []
      (by simp) rfl).1
    simpa using this

end BLEPTD
